import Mathlib

/- Shallow embedding of src/subcmds/diffmanifests.py (class Diffmanifests).

   Output is modelled as a list of events: text segments tagged with the printer
   that emitted them, plus newline events (self.out.nl()).  The printers bound in
   Execute depend on opt.color: with color off, every printer is the plain text
   printer.  The external collaborator project.getAddedAndRemovedLogs is a function
   parameter, and each place where the Python code invokes it is recorded in a
   list of LogCall records so that call patterns can be stated.  Python string
   truthiness (`if s:`) is modelled as `s = ""` tests, list truthiness as `= []`
   tests, `s.split('\n')` as `pySplitNl s` (identical semantics, both
   return [""] on the empty string), `c[:12]` as `String.take 12`, and the
   truthiness of `log.strip()` as "has a non-whitespace character" over the ASCII
   whitespace characters Python strips. -/

namespace Diffmanifests

/-- ASCII whitespace as stripped by Python str.strip(). -/
def pyIsSpace (c : Char) : Bool :=
  c = ' ' || c = '\t' || c = '\n' || c = '\r' || c = '\x0b' || c = '\x0c'

/-- Truthiness of log.strip(): the string has at least one non-whitespace character. -/
def pyNonBlank (s : String) : Bool := s.data.any (fun c => !(pyIsSpace c))

/-- Helper for pySplitNl: walks the characters, accumulating the current piece. -/
def pySplitNlAux : List Char → List Char → List String
  | [], acc => [String.mk acc.reverse]
  | c :: cs, acc =>
    if c = '\n' then String.mk acc.reverse :: pySplitNlAux cs []
    else pySplitNlAux cs (c :: acc)

/-- Python s.split('\n'): n separators yield n+1 pieces, the empty string yields
    [""].  Defined by structural recursion over the characters so that it reduces. -/
def pySplitNl (s : String) : List String := pySplitNlAux s.data []

/-- The printer roles bound in Execute: text (plain), project (bold), green
    (bold green), red (bold red), revision (yellow). -/
inductive Role where
  | text
  | project
  | green
  | red
  | revision
  deriving DecidableEq

/-- One output action: a string emitted through a printer, or self.out.nl(). -/
inductive Event where
  | seg (role : Role) (s : String)
  | nl
  deriving DecidableEq

/-- Emission through one of the color-capable printers.  Execute binds
    printProject/printAdded/printRemoved/printRevision to colored printers when
    opt.color is set and to the plain text printer otherwise. -/
def pseg (optColor : Bool) (r : Role) (s : String) : Event :=
  .seg (if optColor then r else .text) s

/-- A manifest project entry: the stable path key and its pinned revision. -/
structure Project where
  relpath : String
  revisionExpr : String
  deriving DecidableEq

/-- The dict returned by getAddedAndRemovedLogs: two newline-joined strings. -/
structure LogDiff where
  added : String
  removed : String
  deriving DecidableEq

/-- The dict returned by manifest1.projectsDiff(manifest2). -/
structure Diff where
  added : List Project
  removed : List Project
  changed : List (Project × Project)
  unreachable : List (Project × Project)
  deriving DecidableEq

/-- One invocation of project.getAddedAndRemovedLogs(otherProject, oneline=...,
    color=..., pretty_format=...). -/
structure LogCall where
  project : Project
  otherProject : Project
  oneline : Bool
  color : Bool
  pretty_format : Option String
  deriving DecidableEq

/-- The external collaborator getAddedAndRemovedLogs, as a pure oracle. -/
def GetLogs : Type := Project → Project → Bool → Bool → Option String → LogDiff

/-- The _quote helper: markdown wraps the token in an inline code span. -/
def quote (markdown : Bool) (s : String) : String :=
  if markdown then "`" ++ s ++ "`" else s

/-- The _quote_rev helper: a content-addressed id (IsId, external git_config code,
    kept abstract as a parameter) is cut to its first 12 characters, then quoted. -/
def quote_rev (isId : String → Bool) (markdown : Bool) (c : String) : String :=
  quote markdown (if isId c then c.take 12 else c)

/-- The sublist prefix used by _printLogs for commit lines. -/
def subPre (markdown : Bool) : String := if markdown then "    - " else "\t\t"

/-- The limit_lines constant of _printLogs. -/
def limit_lines : Nat := 10

/-- The events of one printed commit line inside _printLogs: raw mode goes fully
    through printText; formatted mode prints the marker through the red/green
    printer and the log text through printText. -/
def lineEvents (raw optColor markdown : Bool) (status marker : String) (role : Role)
    (log : String) : List Event :=
  if raw then [.seg .text (" " ++ status ++ " " ++ log), .nl]
  else [pseg optColor role (subPre markdown ++ marker ++ " "), .seg .text log, .nl]

/-- The truncation summary of _printLogs: the ellipsis through the red/green
    printer, then "(TOTAL n REMOVED|ADDED LOGS)" through printText. -/
def summaryEvents (optColor markdown : Bool) (word : String) (role : Role)
    (total : Nat) : List Event :=
  [pseg optColor role (subPre markdown ++ "... "),
   .seg .text ("(TOTAL " ++ toString total ++ " " ++ word ++ " LOGS)"), .nl]

/-- The for-loop of _printLogs over one split log sequence.  count is the Python
    count variable (incremented for every line, blank or not), total is the length
    of the split list.  Python 3 evaluates len > limit_lines * 3 / 2 with true
    division (len > 15.0), rendered here as 2 * total > 3 * limit_lines. -/
def logLoop (raw optColor markdown : Bool) (status marker word : String) (role : Role)
    (total : Nat) : Nat → List String → List Event
  | _, [] => []
  | count, log :: rest =>
    if pyNonBlank log then
      lineEvents raw optColor markdown status marker role log ++
      (if 2 * total > 3 * limit_lines ∧ count + 1 ≥ limit_lines then
        summaryEvents optColor markdown word role total
      else
        logLoop raw optColor markdown status marker word role total (count + 1) rest)
    else
      logLoop raw optColor markdown status marker word role total (count + 1) rest

/-- One side (removed or added) of _printLogs: the `if logs[side]:` guard, the
    split on newlines, and the loop starting at count = 0. -/
def logSide (raw optColor markdown : Bool) (status marker word : String) (role : Role)
    (content : String) : List Event :=
  if content = "" then []
  else logLoop raw optColor markdown status marker word role
    (pySplitNl content).length 0 (pySplitNl content)

/-- _printLogs: fetches the logs when none were passed in (recording the
    collaborator call), then renders the removed side, then the added side. -/
def printLogs (getLogs : GetLogs) (optColor markdown : Bool)
    (project otherProject : Project) (raw : Bool) (color : Bool)
    (pretty_format : Option String) (logs0 : Option LogDiff) :
    List Event × List LogCall :=
  let fetched : LogDiff × List LogCall :=
    match logs0 with
    | none => (getLogs project otherProject pretty_format.isNone color pretty_format,
        [⟨project, otherProject, pretty_format.isNone, color, pretty_format⟩])
    | some l => (l, [])
  (logSide raw optColor markdown "R" "[-]" "REMOVED" .red fetched.1.removed ++
   logSide raw optColor markdown "A" "[+]" "ADDED" .green fetched.1.added,
   fetched.2)

/-- _printRawDiff: A/R lines, then C lines each followed by its log block
    (raw=True, color=False, default pretty_format=None), then U lines. -/
def printRawDiff (getLogs : GetLogs) (optColor markdown : Bool) (diff : Diff) :
    List Event × List LogCall :=
  let addedE := (diff.added.map fun p =>
    [Event.seg .text ("A " ++ p.relpath ++ " " ++ p.revisionExpr), Event.nl]).flatten
  let removedE := (diff.removed.map fun p =>
    [Event.seg .text ("R " ++ p.relpath ++ " " ++ p.revisionExpr), Event.nl]).flatten
  let changedres := diff.changed.map fun pq =>
    let pl := printLogs getLogs optColor markdown pq.1 pq.2 true false none none
    ([Event.seg .text ("C " ++ pq.1.relpath ++ " " ++ pq.1.revisionExpr ++ " " ++
        pq.2.revisionExpr), Event.nl] ++ pl.1, pl.2)
  let unreachableE := (diff.unreachable.map fun pq =>
    [Event.seg .text ("U " ++ pq.1.relpath ++ " " ++ pq.1.revisionExpr ++ " " ++
       pq.2.revisionExpr), Event.nl]).flatten
  (addedE ++ removedE ++ (changedres.map Prod.fst).flatten ++ unreachableE,
   (changedres.map Prod.snd).flatten)

/-- The title prefix of _printDiff section headers. -/
def titlePre (markdown : Bool) : String := if markdown then "### " else ""

/-- The bullet prefix of _printDiff list entries. -/
def listPre (markdown : Bool) : String := if markdown then "* " else "\t"

/-- The added-projects section of _printDiff. -/
def addedSection (isId : String → Bool) (optColor markdown : Bool)
    (added : List Project) : List Event :=
  if added = [] then []
  else
    [Event.nl, Event.seg .text (titlePre markdown ++ "added projects :\n"), Event.nl] ++
    (added.map fun p =>
      [pseg optColor .project (listPre markdown ++ quote markdown p.relpath),
       Event.seg .text " at revision ",
       pseg optColor .revision (quote_rev isId markdown p.revisionExpr),
       Event.nl]).flatten

/-- The removed-projects section of _printDiff. -/
def removedSection (isId : String → Bool) (optColor markdown : Bool)
    (removed : List Project) : List Event :=
  if removed = [] then []
  else
    [Event.nl, Event.seg .text (titlePre markdown ++ "removed projects :\n"), Event.nl] ++
    (removed.map fun p =>
      [pseg optColor .project (listPre markdown ++ quote markdown p.relpath),
       Event.seg .text " at revision ",
       pseg optColor .revision (quote_rev isId markdown p.revisionExpr),
       Event.nl]).flatten

/-- The adds/removes counters computed in _printDiff for one changed pair:
    0 for an empty string, else the number of non-blank lines of the split. -/
def countLogs (s : String) : Nat :=
  if s = "" then 0 else ((pySplitNl s).filter (fun x => pyNonBlank x)).length

/-- One entry of the changed-projects section: the one-line header, the commit log
    block (logs are fetched here, once, and passed down to _printLogs), and the
    trailing blank line. -/
def changedEntry (isId : String → Bool) (getLogs : GetLogs)
    (optColor markdown color : Bool) (pretty_format : Option String)
    (pq : Project × Project) : List Event × List LogCall :=
  let logs := getLogs pq.1 pq.2 pretty_format.isNone color pretty_format
  let pl := printLogs getLogs optColor markdown pq.1 pq.2 false color pretty_format
    (some logs)
  ([pseg optColor .project (listPre markdown ++ quote markdown pq.1.relpath),
    Event.seg .text " changed from ",
    pseg optColor .revision (quote_rev isId markdown pq.1.revisionExpr),
    Event.seg .text " to ",
    pseg optColor .revision (quote_rev isId markdown pq.2.revisionExpr),
    Event.seg .text (" with " ++ quote markdown (toString (countLogs logs.added)) ++
      " adds, " ++ quote markdown (toString (countLogs logs.removed)) ++ " removes"),
    Event.nl] ++ pl.1 ++ [Event.nl],
   ⟨pq.1, pq.2, pretty_format.isNone, color, pretty_format⟩ :: pl.2)

/-- The changed-projects section of _printDiff, with its collaborator calls. -/
def changedSection (isId : String → Bool) (getLogs : GetLogs)
    (optColor markdown color : Bool) (pretty_format : Option String)
    (changed : List (Project × Project)) : List Event × List LogCall :=
  if changed = [] then ([], [])
  else
    let entries := changed.map (changedEntry isId getLogs optColor markdown color
      pretty_format)
    ([Event.nl, Event.seg .text (titlePre markdown ++ "changed projects :\n"), Event.nl] ++
     (entries.map Prod.fst).flatten,
     (entries.map Prod.snd).flatten)

/-- The unreachable-revisions section of _printDiff. -/
def unreachableSection (isId : String → Bool) (optColor markdown : Bool)
    (unreachable : List (Project × Project)) : List Event :=
  if unreachable = [] then []
  else
    [Event.nl,
     Event.seg .text (titlePre markdown ++ "projects with unreachable revisions :\n"),
     Event.nl] ++
    (unreachable.map fun pq =>
      [pseg optColor .project (listPre markdown ++ quote markdown pq.1.relpath ++ " "),
       pseg optColor .revision (quote_rev isId markdown pq.1.revisionExpr),
       Event.seg .text " or ",
       pseg optColor .revision (quote_rev isId markdown pq.2.revisionExpr),
       Event.seg .text " not found",
       Event.nl]).flatten

/-- _printDiff: the four sections in source order, with the changed section's
    collaborator calls. -/
def printDiff (isId : String → Bool) (getLogs : GetLogs)
    (optColor markdown color : Bool) (pretty_format : Option String)
    (diff : Diff) : List Event × List LogCall :=
  let cs := changedSection isId getLogs optColor markdown color pretty_format diff.changed
  (addedSection isId optColor markdown diff.added ++
   removedSection isId optColor markdown diff.removed ++
   cs.1 ++
   unreachableSection isId optColor markdown diff.unreachable,
   cs.2)

/-- The option values parsed by _Options. -/
structure Opts where
  raw : Bool
  markdown : Bool
  color : Bool
  pretty_format : Option String
  deriving DecidableEq

/-- Modelled from the spec: self.Usage() lives in the external command module (not
    under src/); the spec calls it "a fatal, user-facing usage error terminating
    the command before any diff is computed", so it is modelled as an error value
    that short-circuits Execute with no output and no collaborator calls. -/
inductive CmdError where
  | usage
  deriving DecidableEq

/-- Execute, from the argument-count check onward.  Manifest loading and
    manifest1.projectsDiff(manifest2) are external collaborators, so the resulting
    diff and the resolved manifest names enter as parameters; the usage check
    fires before either is consulted. -/
def ExecuteRender (isId : String → Bool) (getLogs : GetLogs) (opt : Opts)
    (args : List String) (manifest1_name manifest2_name : String) (diff : Diff) :
    Except CmdError (List Event × List LogCall) :=
  if args.length > 2 then .error .usage
  else .ok <|
    if opt.raw then printRawDiff getLogs opt.color opt.markdown diff
    else
      let title :=
        if opt.markdown &&
           !(diff.added.isEmpty && diff.removed.isEmpty && diff.changed.isEmpty &&
             diff.unreachable.isEmpty) then
          [Event.seg .text ("## repo diffmanifests " ++ manifest1_name ++ " " ++
             manifest2_name), Event.nl]
        else []
      let pd := printDiff isId getLogs opt.color opt.markdown opt.color
        opt.pretty_format diff
      (title ++ pd.1, pd.2)

/-- The full output text: segments concatenated, nl rendered as a newline. -/
def outText (es : List Event) : String :=
  es.foldr (fun e acc => (match e with | .seg _ s => s | .nl => "\n") ++ acc) ""

/-- The output split into lines. -/
def outLines (es : List Event) : List String := pySplitNl (outText es)

/-- Whether a line carries one of the five documented raw statuses, read as the
    corresponding prefix. -/
def rawShapeOk (l : String) : Bool :=
  "A ".data.isPrefixOf l.data || "R ".data.isPrefixOf l.data ||
  "C ".data.isPrefixOf l.data || "U ".data.isPrefixOf l.data ||
  " A ".data.isPrefixOf l.data || " R ".data.isPrefixOf l.data

/-- The strings emitted through the revision printer. -/
def revisionTexts (es : List Event) : List String :=
  es.filterMap fun e => match e with
    | .seg Role.revision s => some s
    | _ => none

/-- The text of the first output line: everything before the first nl event. -/
def firstLine (es : List Event) : String :=
  outText (es.takeWhile fun e => match e with | .nl => false | _ => true)


/-- Joining singleton lists is mapping. -/
theorem flatten_map_singleton {α β : Type} (f : α → β) (l : List α) :
    (l.map fun x => [f x]).flatten = l.map f := by
  induction l with
  | nil => rfl
  | cons a t ih => simp [ih]

/-- C6: more than two manifest arguments make Execute terminate with the fatal
    usage error, for every possible diff and collaborator and with no output
    produced; with two or fewer arguments no usage error is raised. -/
theorem C6_usage_guard (isId : String → Bool) (getLogs : GetLogs) (opt : Opts)
    (args : List String) (m1 m2 : String) :
    (args.length > 2 → ∀ diff : Diff,
        ExecuteRender isId getLogs opt args m1 m2 diff = .error .usage) ∧
    (args.length ≤ 2 → ∀ diff : Diff, ∃ out,
        ExecuteRender isId getLogs opt args m1 m2 diff = .ok out) := by
  constructor
  · intro h diff
    simp only [ExecuteRender, if_pos h]
  · intro h diff
    exact ⟨_, by simp only [ExecuteRender]; rw [if_neg (by omega)]⟩

/-- C6 witness: three arguments abort with the usage error, one argument does not. -/
theorem C6_usage_guard_witness :
    ExecuteRender (fun _ => false) (fun _ _ _ _ _ => ⟨"", ""⟩)
        ⟨false, false, true, none⟩ ["a", "b", "c"] "m1" "m2" ⟨[], [], [], []⟩ =
      .error .usage ∧
    ∃ out, ExecuteRender (fun _ => false) (fun _ _ _ _ _ => ⟨"", ""⟩)
        ⟨false, false, true, none⟩ ["a"] "m1" "m2" ⟨[], [], [], []⟩ = .ok out :=
  ⟨(C6_usage_guard _ _ _ _ _ _).1 (by decide) _,
   (C6_usage_guard _ _ _ _ _ _).2 (by decide) _⟩

/-- C1: the claim is falsified at a removed-log sequence of 16 split lines of
    which only one is non-blank: it has 15 or fewer non-blank lines, so the claim
    says it is printed in full with no summary line, yet _printLogs emits the
    "... (TOTAL 16 REMOVED LOGS)" summary, because the code compares the total
    number of split lines (blank ones included) against the threshold. -/
theorem C1_counterexample :
    ((pySplitNl "\n\n\n\n\n\n\n\n\n\n\n\n\n\n\nx").filter pyNonBlank).length = 1 ∧
    (printLogs (fun _ _ _ _ _ => ⟨"", ""⟩) false false ⟨"p", "r1"⟩ ⟨"p", "r2"⟩ false
        true none (some ⟨"", "\n\n\n\n\n\n\n\n\n\n\n\n\n\n\nx"⟩)).1 =
      [Event.seg .text "\t\t[-] ", Event.seg .text "x", Event.nl,
       Event.seg .text "\t\t... ", Event.seg .text "(TOTAL 16 REMOVED LOGS)",
       Event.nl] := by decide

/-- C2: evaluation at the failing input: a changed project whose added log has 16
    non-blank lines.  In raw mode the C line is followed by only the first 10
    " A" commit lines and then the truncation summary, so the log block is not
    printed in full, contradicting the claim (and the command docstring, which
    documents raw commit lines as "<status> <onelined log>" with a leading space). -/
theorem C2_raw_mode_truncates :
    (printRawDiff
        (fun _ _ _ _ _ => ⟨"x\nx\nx\nx\nx\nx\nx\nx\nx\nx\nx\nx\nx\nx\nx\nx", ""⟩)
        false false ⟨[], [], [(⟨"p", "r1"⟩, ⟨"p", "r2"⟩)], []⟩).1 =
      [Event.seg .text "C p r1 r2", Event.nl] ++
      (List.replicate 10 [Event.seg .text " A x", Event.nl]).flatten ++
      [Event.seg .text "\t\t... ", Event.seg .text "(TOTAL 16 ADDED LOGS)",
       Event.nl] := by decide

/-- C3: evaluation at the failing input: with a changed project whose added log
    has 16 non-blank lines, raw output contains the line
    "\t\t... (TOTAL 16 ADDED LOGS)", which carries none of the five documented
    status shapes. -/
theorem C3_raw_shape_violated :
    "\t\t... (TOTAL 16 ADDED LOGS)" ∈
      outLines (printRawDiff
        (fun _ _ _ _ _ => ⟨"x\nx\nx\nx\nx\nx\nx\nx\nx\nx\nx\nx\nx\nx\nx\nx", ""⟩)
        false false ⟨[], [], [(⟨"p", "r1"⟩, ⟨"p", "r2"⟩)], []⟩).1 ∧
    rawShapeOk "\t\t... (TOTAL 16 ADDED LOGS)" = false := by decide

/-- C5: evaluation at the failing input: with a changed project whose added log
    has 16 lines, the raw report differs depending on the color option, because
    the truncation summary marker goes through the color-bound printAdded
    printer; the log collaborator is nevertheless called with color disabled. -/
theorem C5_raw_not_color_invariant :
    (printRawDiff
        (fun _ _ _ _ _ => ⟨"x\nx\nx\nx\nx\nx\nx\nx\nx\nx\nx\nx\nx\nx\nx\nx", ""⟩)
        true false ⟨[], [], [(⟨"p", "r1"⟩, ⟨"p", "r2"⟩)], []⟩).1 ≠
    (printRawDiff
        (fun _ _ _ _ _ => ⟨"x\nx\nx\nx\nx\nx\nx\nx\nx\nx\nx\nx\nx\nx\nx\nx", ""⟩)
        false false ⟨[], [], [(⟨"p", "r1"⟩, ⟨"p", "r2"⟩)], []⟩).1 ∧
    (printRawDiff
        (fun _ _ _ _ _ => ⟨"x\nx\nx\nx\nx\nx\nx\nx\nx\nx\nx\nx\nx\nx\nx\nx", ""⟩)
        true false ⟨[], [], [(⟨"p", "r1"⟩, ⟨"p", "r2"⟩)], []⟩).2 =
      [⟨⟨"p", "r1"⟩, ⟨"p", "r2"⟩, true, false, none⟩] := by decide


/-- C9: during one render pass the log collaborator getAddedAndRemovedLogs is
    invoked only for pairs of the changed bucket, exactly once per pair and in
    bucket order, never for added, removed or unreachable entries: in raw mode
    the recorded calls are exactly the changed pairs (oneline, uncolored, default
    format), and in formatted mode exactly the changed pairs with the
    user-selected color and pretty format. -/
theorem C9_log_calls_once_per_changed (isId : String → Bool) (getLogs : GetLogs)
    (optColor markdown color : Bool) (pf : Option String) (diff : Diff) :
    (printRawDiff getLogs optColor markdown diff).2 =
      diff.changed.map (fun pq => ⟨pq.1, pq.2, true, false, none⟩) ∧
    (printDiff isId getLogs optColor markdown color pf diff).2 =
      diff.changed.map (fun pq => ⟨pq.1, pq.2, pf.isNone, color, pf⟩) := by
  constructor
  · simp only [printRawDiff, printLogs, List.map_map]
    rw [← flatten_map_singleton
      (fun pq : Project × Project => (⟨pq.1, pq.2, true, false, none⟩ : LogCall))
      diff.changed]
    rfl
  · by_cases h : diff.changed = []
    · simp [printDiff, changedSection, h]
    · simp only [printDiff, changedSection, if_neg h, changedEntry, printLogs,
        List.map_map]
      rw [← flatten_map_singleton
        (fun pq : Project × Project => (⟨pq.1, pq.2, pf.isNone, color, pf⟩ : LogCall))
        diff.changed]
      rfl

/-- C10: in formatted mode an all-empty diff writes nothing at all to the output
    stream, and the markdown title line "## repo diffmanifests name1 name2" is
    emitted exactly when the markdown option is set and some bucket is non-empty. -/
theorem C10_formatted_empty_silent (isId : String → Bool) (getLogs : GetLogs)
    (opt : Opts) (args : List String) (m1 m2 : String) (diff : Diff)
    (hraw : opt.raw = false) (hargs : args.length ≤ 2) :
    (diff = ⟨[], [], [], []⟩ →
      ExecuteRender isId getLogs opt args m1 m2 diff = .ok ([], [])) ∧
    (opt.markdown = false →
      ExecuteRender isId getLogs opt args m1 m2 diff =
        .ok (printDiff isId getLogs opt.color opt.markdown opt.color
          opt.pretty_format diff)) ∧
    (opt.markdown = true →
      ¬(diff.added = [] ∧ diff.removed = [] ∧ diff.changed = [] ∧
         diff.unreachable = []) →
      ExecuteRender isId getLogs opt args m1 m2 diff =
        .ok (Event.seg .text ("## repo diffmanifests " ++ m1 ++ " " ++ m2) ::
               Event.nl ::
               (printDiff isId getLogs opt.color opt.markdown opt.color
                 opt.pretty_format diff).1,
             (printDiff isId getLogs opt.color opt.markdown opt.color
               opt.pretty_format diff).2)) := by
  refine ⟨?_, ?_, ?_⟩
  · intro hd
    subst hd
    simp [ExecuteRender, hraw, Nat.not_lt.mpr hargs, printDiff, addedSection,
      removedSection, changedSection, unreachableSection]
  · intro hmd
    simp [ExecuteRender, hraw, hmd, Nat.not_lt.mpr hargs]
  · intro hmd hne
    have hb : (diff.added.isEmpty && diff.removed.isEmpty && diff.changed.isEmpty &&
        diff.unreachable.isEmpty) = false := by
      cases ha : diff.added.isEmpty <;> cases hr : diff.removed.isEmpty <;>
        cases hc : diff.changed.isEmpty <;> cases hu : diff.unreachable.isEmpty <;>
        simp_all [List.isEmpty_iff]
    simp [ExecuteRender, hraw, hmd, hb, Nat.not_lt.mpr hargs]

/-- C10 witness: an empty diff renders to nothing; with markdown and a non-empty
    added bucket the title line is emitted. -/
theorem C10_formatted_empty_silent_witness :
    ExecuteRender (fun _ => false) (fun _ _ _ _ _ => ⟨"", ""⟩)
        ⟨false, false, true, none⟩ [] "m1" "m2" ⟨[], [], [], []⟩ = .ok ([], []) ∧
    ExecuteRender (fun _ => false) (fun _ _ _ _ _ => ⟨"", ""⟩)
        ⟨false, true, true, none⟩ [] "m1" "m2" ⟨[⟨"p", "r"⟩], [], [], []⟩ =
      .ok (Event.seg .text "## repo diffmanifests m1 m2" :: Event.nl ::
             (printDiff (fun _ => false) (fun _ _ _ _ _ => ⟨"", ""⟩) true true true
               none ⟨[⟨"p", "r"⟩], [], [], []⟩).1,
           (printDiff (fun _ => false) (fun _ _ _ _ _ => ⟨"", ""⟩) true true true
             none ⟨[⟨"p", "r"⟩], [], [], []⟩).2) := by
  constructor
  · exact (C10_formatted_empty_silent (fun _ => false) (fun _ _ _ _ _ => ⟨"", ""⟩)
      ⟨false, false, true, none⟩ [] "m1" "m2" ⟨[], [], [], []⟩ rfl (by decide)).1 rfl
  · exact (C10_formatted_empty_silent (fun _ => false) (fun _ _ _ _ _ => ⟨"", ""⟩)
      ⟨false, true, true, none⟩ [] "m1" "m2" ⟨[⟨"p", "r"⟩], [], [], []⟩ rfl
      (by decide)).2.2 rfl (by simp)


/-- With at most 15 split lines the _printLogs loop prints every non-blank line,
    in order, and never prints a summary. -/
theorem logLoop_no_trunc (raw optColor markdown : Bool) (st mk wd : String)
    (role : Role) (total : Nat) (h : ¬ 2 * total > 3 * limit_lines) :
    ∀ (count : Nat) (L : List String),
      logLoop raw optColor markdown st mk wd role total count L =
        ((L.filter pyNonBlank).map
          (lineEvents raw optColor markdown st mk role)).flatten := by
  intro count L
  induction L generalizing count with
  | nil => simp [logLoop]
  | cons l rest ih =>
    have hcond : ¬(2 * total > 3 * limit_lines ∧ count + 1 ≥ limit_lines) :=
      fun hc => h hc.1
    by_cases hb : pyNonBlank l
    · simp [logLoop, hb, hcond, ih, List.filter_cons]
    · simp [logLoop, hb, ih, List.filter_cons]

/-- Once the running count has reached 9, a long sequence truncates at the first
    non-blank line: exactly that line (if any) and then the summary are printed. -/
theorem logLoop_trunc_tail (raw optColor markdown : Bool) (st mk wd : String)
    (role : Role) (total : Nat) (h : 2 * total > 3 * limit_lines) :
    ∀ (count : Nat) (L : List String), 9 ≤ count →
      logLoop raw optColor markdown st mk wd role total count L =
        (((L.dropWhile (fun l => !pyNonBlank l)).take 1).map
            (lineEvents raw optColor markdown st mk role)).flatten ++
          (if L.dropWhile (fun l => !pyNonBlank l) = [] then []
           else summaryEvents optColor markdown wd role total) := by
  intro count L
  induction L generalizing count with
  | nil => intro _; simp [logLoop]
  | cons l rest ih =>
    intro hc
    by_cases hb : pyNonBlank l
    · have hcond : 2 * total > 3 * limit_lines ∧ count + 1 ≥ limit_lines :=
        ⟨h, by simp only [limit_lines]; omega⟩
      simp [logLoop, hb, hcond, List.dropWhile_cons]
    · simp [logLoop, hb, List.dropWhile_cons, ih (count + 1) (by omega)]

/-- Below count 9 a long sequence prints the non-blank lines among its next
    9 - count entries, then truncates at the following first non-blank line. -/
theorem logLoop_trunc_main (raw optColor markdown : Bool) (st mk wd : String)
    (role : Role) (total : Nat) (h : 2 * total > 3 * limit_lines) :
    ∀ (n count : Nat) (L : List String), count + n = 9 →
      logLoop raw optColor markdown st mk wd role total count L =
        (((L.take n).filter pyNonBlank).map
            (lineEvents raw optColor markdown st mk role)).flatten ++
        ((((L.drop n).dropWhile (fun l => !pyNonBlank l)).take 1).map
            (lineEvents raw optColor markdown st mk role)).flatten ++
        (if (L.drop n).dropWhile (fun l => !pyNonBlank l) = [] then []
         else summaryEvents optColor markdown wd role total) := by
  intro n
  induction n with
  | zero =>
    intro count L hcount
    simpa using logLoop_trunc_tail raw optColor markdown st mk wd role total h
      count L (by omega)
  | succ n ih =>
    intro count L hcount
    cases L with
    | nil => simp [logLoop]
    | cons l rest =>
      by_cases hb : pyNonBlank l
      · have hcond : ¬(2 * total > 3 * limit_lines ∧ count + 1 ≥ limit_lines) := by
          intro hcon
          have := hcon.2
          simp only [limit_lines] at this
          omega
        simp [logLoop, hb, hcond, ih (count + 1) rest (by omega), List.filter_cons,
          List.append_assoc]
      · simp [logLoop, hb, ih (count + 1) rest (by omega), List.filter_cons]


/-- C1 (amended): in formatted mode, _printLogs truncation is governed by the
    total number of split lines (blank lines included), not by the non-blank
    count, and the count reported in the summary is that total: writing L for
    the sequence split on newlines, (i) when L has at most 15 lines every
    non-blank line is printed and no summary appears; (ii) when L has more than
    15 lines, the non-blank lines among the first nine entries are printed, then
    the first non-blank line at or after the tenth entry (if one exists), then
    one summary line reporting L's total length — and when no non-blank line
    exists at or after the tenth entry, all non-blank lines are printed with no
    summary; (iii) in particular a sequence of 16 lines, all non-blank, prints
    exactly its first 10 lines followed by one summary line reporting 16. -/
theorem C1_truncation_amended (oc md : Bool) (st mk wd : String) (role : Role)
    (content : String) (hne : content ≠ "") :
    ((pySplitNl content).length ≤ 15 →
      logSide false oc md st mk wd role content =
        (((pySplitNl content).filter pyNonBlank).map
          (lineEvents false oc md st mk role)).flatten) ∧
    ((pySplitNl content).length > 15 →
      logSide false oc md st mk wd role content =
        ((((pySplitNl content).take 9).filter pyNonBlank ++
            (((pySplitNl content).drop 9).dropWhile
              (fun l => !pyNonBlank l)).take 1).map
          (lineEvents false oc md st mk role)).flatten ++
        (if ((pySplitNl content).drop 9).dropWhile (fun l => !pyNonBlank l) = []
         then []
         else summaryEvents oc md wd role (pySplitNl content).length)) ∧
    ((pySplitNl content).length = 16 → (∀ l ∈ pySplitNl content, pyNonBlank l) →
      logSide false oc md st mk wd role content =
        (((pySplitNl content).take 10).map
          (lineEvents false oc md st mk role)).flatten ++
        summaryEvents oc md wd role 16) := by
  have key2 : (pySplitNl content).length > 15 →
      logSide false oc md st mk wd role content =
        ((((pySplitNl content).take 9).filter pyNonBlank ++
            (((pySplitNl content).drop 9).dropWhile
              (fun l => !pyNonBlank l)).take 1).map
          (lineEvents false oc md st mk role)).flatten ++
        (if ((pySplitNl content).drop 9).dropWhile (fun l => !pyNonBlank l) = []
         then []
         else summaryEvents oc md wd role (pySplitNl content).length) := by
    intro hlen
    rw [logSide, if_neg hne]
    rw [logLoop_trunc_main false oc md st mk wd role (pySplitNl content).length
      (by simp only [limit_lines]; omega) 9 0 (pySplitNl content) (by omega)]
    simp [List.map_append, List.flatten_append, List.append_assoc]
  refine ⟨?_, key2, ?_⟩
  · intro hlen
    rw [logSide, if_neg hne]
    exact logLoop_no_trunc false oc md st mk wd role _
      (by simp only [limit_lines]; omega) 0 _
  · intro h16 hall
    have e := key2 (by omega)
    have h1 : ((pySplitNl content).take 9).filter pyNonBlank =
        (pySplitNl content).take 9 :=
      List.filter_eq_self.mpr fun a ha => hall a (List.take_subset 9 _ ha)
    have hd9 : (pySplitNl content).drop 9 ≠ [] := by
      rw [ne_eq, List.drop_eq_nil_iff]
      omega
    obtain ⟨d, ds, hds⟩ := List.exists_cons_of_ne_nil hd9
    have hdnb : pyNonBlank d = true :=
      hall d (List.drop_subset 9 _ (by rw [hds]; exact List.mem_cons_self d ds))
    have h2 : ((pySplitNl content).drop 9).dropWhile (fun l => !pyNonBlank l) =
        (pySplitNl content).drop 9 := by
      rw [hds, List.dropWhile_cons_of_neg]
      simp [hdnb]
    have h3 : (pySplitNl content).take 9 ++ ((pySplitNl content).drop 9).take 1 =
        (pySplitNl content).take 10 := by
      conv_rhs => rw [← List.take_append_drop 9 (pySplitNl content)]
      rw [List.take_append_eq_append_take, List.take_take, List.length_take]
      have hm : min 10 9 = 9 := by omega
      have hm2 : 10 - min 9 (pySplitNl content).length = 1 := by omega
      rw [hm, hm2]
    rw [e, h1, h2, h3, if_neg hd9, h16]

/-- C1 witness: the amended truncation rule evaluated at a two-line sequence
    (no truncation) and at a 16-line all-non-blank sequence (truncation to 10
    lines plus a summary reporting 16). -/
theorem C1_truncation_amended_witness :
    logSide false false false "R" "[-]" "REMOVED" .red "a\nb" =
      (((pySplitNl "a\nb").filter pyNonBlank).map
        (lineEvents false false false "R" "[-]" .red)).flatten ∧
    logSide false false false "A" "[+]" "ADDED" .green
        "x\nx\nx\nx\nx\nx\nx\nx\nx\nx\nx\nx\nx\nx\nx\nx" =
      (((pySplitNl "x\nx\nx\nx\nx\nx\nx\nx\nx\nx\nx\nx\nx\nx\nx\nx").take 10).map
        (lineEvents false false false "A" "[+]" .green)).flatten ++
      summaryEvents false false "ADDED" .green 16 :=
  ⟨(C1_truncation_amended false false "R" "[-]" "REMOVED" .red "a\nb"
      (by decide)).1 (by decide),
   (C1_truncation_amended false false "A" "[+]" "ADDED" .green
      "x\nx\nx\nx\nx\nx\nx\nx\nx\nx\nx\nx\nx\nx\nx\nx" (by decide)).2.2
      (by decide) (by decide)⟩


/-- countLogs agrees with the number of non-blank lines of the split sequence,
    also for the empty string (whose split [""] has no non-blank line). -/
theorem countLogs_eq (s : String) :
    countLogs s = ((pySplitNl s).filter pyNonBlank).length := by
  by_cases h : s = ""
  · subst h
    decide
  · rw [countLogs, if_neg h]

/-- C7: each formatted changed entry's header line renders as the bullet, the
    (quoted) relpath, " changed from ", the old revision, " to ", the new
    revision, " with ", the added count, " adds, ", the removed count,
    " removes" — where the two counts are the numbers of non-blank lines of the
    added and removed log strings returned by the collaborator (0 when the
    string is empty, by countLogs_eq baked into the statement). -/
theorem C7_changed_entry_header (isId : String → Bool) (getLogs : GetLogs)
    (oc md color : Bool) (pf : Option String) (pq : Project × Project) :
    firstLine ((changedEntry isId getLogs oc md color pf pq).1) =
      listPre md ++ quote md pq.1.relpath ++ " changed from " ++
      quote_rev isId md pq.1.revisionExpr ++ " to " ++
      quote_rev isId md pq.2.revisionExpr ++ " with " ++
      quote md (toString (((pySplitNl
        (getLogs pq.1 pq.2 pf.isNone color pf).added).filter pyNonBlank).length)) ++
      " adds, " ++
      quote md (toString (((pySplitNl
        (getLogs pq.1 pq.2 pf.isNone color pf).removed).filter pyNonBlank).length)) ++
      " removes" := by
  rw [← countLogs_eq, ← countLogs_eq]
  apply String.ext
  simp [changedEntry, firstLine, outText, List.takeWhile_cons, pseg,
    String.data_append, List.append_assoc]


/-- The head surviving dropWhile falsifies the predicate. -/
theorem dropWhile_head_false {α : Type} {p : α → Bool} {M : List α} {d : α}
    {ds : List α} (h : M.dropWhile p = d :: ds) : p d = false := by
  induction M with
  | nil => simp at h
  | cons x xs ih =>
    by_cases hx : p x
    · rw [List.dropWhile_cons_of_pos hx] at h
      exact ih h
    · rw [List.dropWhile_cons_of_neg hx] at h
      injection h with h1 h2
      subst h1
      exact Bool.eq_false_iff.mpr hx

/-- The formatted rendering of one log side prints an order-preserving selection
    of the split sequence's non-blank lines, optionally followed by one summary. -/
theorem logSide_formatted_shape (oc md : Bool) (st mk wd : String) (role : Role)
    (content : String) :
    ∃ P : List String, ∃ sum : List Event,
      P.Sublist (pySplitNl content) ∧ (∀ l ∈ P, pyNonBlank l) ∧
      (sum = [] ∨ sum = summaryEvents oc md wd role (pySplitNl content).length) ∧
      logSide false oc md st mk wd role content =
        (P.map (lineEvents false oc md st mk role)).flatten ++ sum := by
  by_cases hne : content = ""
  · exact ⟨[], [], List.nil_sublist _, by simp, Or.inl rfl, by simp [logSide, hne]⟩
  by_cases hlen : (pySplitNl content).length ≤ 15
  · refine ⟨(pySplitNl content).filter pyNonBlank, [], List.filter_sublist _,
      fun l hl => List.of_mem_filter hl, Or.inl rfl, ?_⟩
    rw [logSide, if_neg hne, logLoop_no_trunc false oc md st mk wd role _
      (by simp only [limit_lines]; omega) 0 _]
    simp
  · have hA : List.Sublist (((pySplitNl content).take 9).filter pyNonBlank)
        ((pySplitNl content).take 9) := List.filter_sublist _
    have hB : List.Sublist ((((pySplitNl content).drop 9).dropWhile
          (fun l => !pyNonBlank l)).take 1) ((pySplitNl content).drop 9) :=
      (List.take_sublist _ _).trans (List.dropWhile_sublist _)
    have hsub : List.Sublist
        (((pySplitNl content).take 9).filter pyNonBlank ++
          (((pySplitNl content).drop 9).dropWhile (fun l => !pyNonBlank l)).take 1)
        (pySplitNl content) := by
      have := List.Sublist.append hA hB
      rwa [List.take_append_drop] at this
    refine ⟨_, if ((pySplitNl content).drop 9).dropWhile (fun l => !pyNonBlank l) = []
      then [] else summaryEvents oc md wd role (pySplitNl content).length,
      hsub, ?_, ?_, ?_⟩
    · intro l hl
      rcases List.mem_append.mp hl with hl | hl
      · exact List.of_mem_filter hl
      · rcases hM : ((pySplitNl content).drop 9).dropWhile
          (fun l => !pyNonBlank l) with _ | ⟨d, ds⟩
        · rw [hM] at hl
          simp at hl
        · rw [hM] at hl
          have hd0 := dropWhile_head_false hM
          have hl2 : l = d := by simpa using hl
          subst hl2
          simpa using hd0
    · split
      · exact Or.inl rfl
      · exact Or.inr rfl
    · rw [logSide, if_neg hne, logLoop_trunc_main false oc md st mk wd role _
        (by simp only [limit_lines]; omega) 9 0 _ (by omega)]
      simp [List.map_append, List.flatten_append, List.append_assoc]


/-- C8: formatted sections appear only for non-empty buckets and in the fixed
    order added, removed, changed, unreachable; within each changed entry's
    commit log block the removed side is rendered first, its printed lines
    carrying the "[-] " marker through the red printer, then the added side with
    the "[+] " marker through the green printer, and each side prints an
    order-preserving selection (a sublist) of its LogDiff split sequence's
    non-blank lines, optionally followed by its one summary line. -/
theorem C8_sections_and_log_block (isId : String → Bool) (getLogs : GetLogs)
    (oc md color : Bool) (pf : Option String) (diff : Diff) :
    ((printDiff isId getLogs oc md color pf diff).1 =
      addedSection isId oc md diff.added ++
      removedSection isId oc md diff.removed ++
      (changedSection isId getLogs oc md color pf diff.changed).1 ++
      unreachableSection isId oc md diff.unreachable) ∧
    (addedSection isId oc md diff.added = [] ↔ diff.added = []) ∧
    (removedSection isId oc md diff.removed = [] ↔ diff.removed = []) ∧
    ((changedSection isId getLogs oc md color pf diff.changed).1 = [] ↔
      diff.changed = []) ∧
    (unreachableSection isId oc md diff.unreachable = [] ↔
      diff.unreachable = []) ∧
    (∀ p q : Project, ∀ logs : LogDiff,
      ∃ R A : List String, ∃ sumR sumA : List Event,
        List.Sublist R (pySplitNl logs.removed) ∧ (∀ l ∈ R, pyNonBlank l) ∧
        List.Sublist A (pySplitNl logs.added) ∧ (∀ l ∈ A, pyNonBlank l) ∧
        (sumR = [] ∨
          sumR = summaryEvents oc md "REMOVED" .red (pySplitNl logs.removed).length) ∧
        (sumA = [] ∨
          sumA = summaryEvents oc md "ADDED" .green (pySplitNl logs.added).length) ∧
        (printLogs getLogs oc md p q false color pf (some logs)).1 =
          (R.map (lineEvents false oc md "R" "[-]" .red)).flatten ++ sumR ++
          (A.map (lineEvents false oc md "A" "[+]" .green)).flatten ++ sumA) := by
  refine ⟨rfl, ?_, ?_, ?_, ?_, ?_⟩
  · constructor
    · intro h
      by_contra hne
      rw [addedSection, if_neg hne] at h
      exact absurd h (by simp)
    · intro h
      rw [addedSection, if_pos h]
  · constructor
    · intro h
      by_contra hne
      rw [removedSection, if_neg hne] at h
      exact absurd h (by simp)
    · intro h
      rw [removedSection, if_pos h]
  · constructor
    · intro h
      by_contra hne
      rw [changedSection, if_neg hne] at h
      exact absurd h (by simp)
    · intro h
      rw [changedSection, if_pos h]
  · constructor
    · intro h
      by_contra hne
      rw [unreachableSection, if_neg hne] at h
      exact absurd h (by simp)
    · intro h
      rw [unreachableSection, if_pos h]
  · intro p q logs
    obtain ⟨R, sumR, hRsub, hRnb, hRsum, hR⟩ :=
      logSide_formatted_shape oc md "R" "[-]" "REMOVED" .red logs.removed
    obtain ⟨A, sumA, hAsub, hAnb, hAsum, hA⟩ :=
      logSide_formatted_shape oc md "A" "[+]" "ADDED" .green logs.added
    refine ⟨R, A, sumR, sumA, hRsub, hRnb, hAsub, hAnb, hRsum, hAsum, ?_⟩
    show logSide false oc md "R" "[-]" "REMOVED" .red logs.removed ++
      logSide false oc md "A" "[+]" "ADDED" .green logs.added = _
    rw [hR, hA]
    simp [List.append_assoc]

/-- C8 witness: the section decomposition evaluated at a concrete diff with one
    changed pair and an empty unreachable bucket. -/
theorem C8_sections_and_log_block_witness :
    (printDiff (fun _ => false) (fun _ _ _ _ _ => ⟨"a", ""⟩) false false true none
        ⟨[⟨"q", "r"⟩], [], [(⟨"p", "r1"⟩, ⟨"p", "r2"⟩)], []⟩).1 =
      addedSection (fun _ => false) false false [⟨"q", "r"⟩] ++
      removedSection (fun _ => false) false false [] ++
      (changedSection (fun _ => false) (fun _ _ _ _ _ => ⟨"a", ""⟩) false false true
        none [(⟨"p", "r1"⟩, ⟨"p", "r2"⟩)]).1 ++
      unreachableSection (fun _ => false) false false [] ∧
    (unreachableSection (fun _ => false) false false [] = [] ↔
      ([] : List (Project × Project)) = []) :=
  ⟨(C8_sections_and_log_block (fun _ => false) (fun _ _ _ _ _ => ⟨"a", ""⟩)
      false false true none ⟨[⟨"q", "r"⟩], [], [(⟨"p", "r1"⟩, ⟨"p", "r2"⟩)], []⟩).1,
   (C8_sections_and_log_block (fun _ => false) (fun _ _ _ _ _ => ⟨"a", ""⟩)
      false false true none ⟨[⟨"q", "r"⟩], [], [(⟨"p", "r1"⟩, ⟨"p", "r2"⟩)], []⟩).2.2.2.2.1⟩


/-- revisionTexts distributes over append. -/
theorem revisionTexts_append (a b : List Event) :
    revisionTexts (a ++ b) = revisionTexts a ++ revisionTexts b :=
  List.filterMap_append a b _

/-- A commit line printed through a non-revision role has no revision text. -/
theorem revisionTexts_lineEvents (raw oc md : Bool) (st mk : String) (role : Role)
    (hrole : role ≠ .revision) (l : String) :
    revisionTexts (lineEvents raw oc md st mk role l) = [] := by
  cases raw <;> cases oc <;> cases role <;>
    simp_all [lineEvents, revisionTexts, pseg, List.filterMap]

/-- A truncation summary printed through a non-revision role has no revision text. -/
theorem revisionTexts_summaryEvents (oc md : Bool) (wd : String) (role : Role)
    (hrole : role ≠ .revision) (total : Nat) :
    revisionTexts (summaryEvents oc md wd role total) = [] := by
  cases oc <;> cases role <;>
    simp_all [summaryEvents, revisionTexts, pseg, List.filterMap]

/-- The _printLogs loop emits nothing through the revision printer. -/
theorem revisionTexts_logLoop (raw oc md : Bool) (st mk wd : String) (role : Role)
    (hrole : role ≠ .revision) (total : Nat) :
    ∀ (count : Nat) (L : List String),
      revisionTexts (logLoop raw oc md st mk wd role total count L) = [] := by
  intro count L
  induction L generalizing count with
  | nil => simp [logLoop, revisionTexts, List.filterMap]
  | cons l rest ih =>
    by_cases hb : pyNonBlank l
    · by_cases hcond : 2 * total > 3 * limit_lines ∧ count + 1 ≥ limit_lines
      · simp [logLoop, hb, hcond, revisionTexts_append,
          revisionTexts_lineEvents raw oc md st mk role hrole,
          revisionTexts_summaryEvents oc md wd role hrole]
      · simp [logLoop, hb, hcond, revisionTexts_append,
          revisionTexts_lineEvents raw oc md st mk role hrole, ih]
    · simp [logLoop, hb, ih]

/-- One _printLogs side emits nothing through the revision printer. -/
theorem revisionTexts_logSide (raw oc md : Bool) (st mk wd : String) (role : Role)
    (hrole : role ≠ .revision) (content : String) :
    revisionTexts (logSide raw oc md st mk wd role content) = [] := by
  by_cases h : content = ""
  · simp [logSide, h, revisionTexts, List.filterMap]
  · rw [logSide, if_neg h]
    exact revisionTexts_logLoop raw oc md st mk wd role hrole _ 0 _

/-- _printLogs emits nothing through the revision printer. -/
theorem revisionTexts_printLogs (getLogs : GetLogs) (oc md : Bool)
    (p q : Project) (raw color : Bool) (pf : Option String)
    (logs0 : Option LogDiff) :
    revisionTexts (printLogs getLogs oc md p q raw color pf logs0).1 = [] := by
  cases logs0 <;>
    simp [printLogs, revisionTexts_append,
      revisionTexts_logSide raw oc md "R" "[-]" "REMOVED" .red (by decide),
      revisionTexts_logSide raw oc md "A" "[+]" "ADDED" .green (by decide)]

/-- revisionTexts of a flatten of blocks, blockwise. -/
theorem revisionTexts_flatten_map {α : Type} (f : α → List Event)
    (g : α → List String) (l : List α) (h : ∀ x, revisionTexts (f x) = g x) :
    revisionTexts (l.map f).flatten = (l.map g).flatten := by
  induction l with
  | nil => rfl
  | cons a t ih => simp [revisionTexts_append, h, ih]

/-- A flatten of revision-free blocks is revision-free. -/
theorem revisionTexts_flatten_nil {α : Type} (f : α → List Event) (l : List α)
    (h : ∀ x ∈ l, revisionTexts (f x) = []) :
    revisionTexts (l.map f).flatten = [] := by
  induction l with
  | nil => rfl
  | cons a t ih =>
    simp only [List.map_cons, List.flatten_cons, revisionTexts_append]
    rw [h a (List.mem_cons_self a t), ih fun x hx => h x (List.mem_cons_of_mem a hx)]
    rfl

/-- The added section's revision printer output, with color bound. -/
theorem revisionTexts_addedSection (isId : String → Bool) (md : Bool)
    (added : List Project) :
    revisionTexts (addedSection isId true md added) =
      added.map (fun p => quote_rev isId md p.revisionExpr) := by
  by_cases h : added = []
  · simp [addedSection, h, revisionTexts, List.filterMap]
  · rw [addedSection, if_neg h, revisionTexts_append,
      revisionTexts_flatten_map
        (fun p : Project => [pseg true .project (listPre md ++ quote md p.relpath),
          Event.seg .text " at revision ",
          pseg true .revision (quote_rev isId md p.revisionExpr), Event.nl])
        (fun p => [quote_rev isId md p.revisionExpr]) added (fun p => rfl),
      flatten_map_singleton]
    rfl

/-- The removed section's revision printer output, with color bound. -/
theorem revisionTexts_removedSection (isId : String → Bool) (md : Bool)
    (removed : List Project) :
    revisionTexts (removedSection isId true md removed) =
      removed.map (fun p => quote_rev isId md p.revisionExpr) := by
  by_cases h : removed = []
  · simp [removedSection, h, revisionTexts, List.filterMap]
  · rw [removedSection, if_neg h, revisionTexts_append,
      revisionTexts_flatten_map
        (fun p : Project => [pseg true .project (listPre md ++ quote md p.relpath),
          Event.seg .text " at revision ",
          pseg true .revision (quote_rev isId md p.revisionExpr), Event.nl])
        (fun p => [quote_rev isId md p.revisionExpr]) removed (fun p => rfl),
      flatten_map_singleton]
    rfl

/-- Each changed entry shows exactly its two revisions through the revision
    printer (the log block contributes none). -/
theorem revisionTexts_changedEntry (isId : String → Bool) (getLogs : GetLogs)
    (md color : Bool) (pf : Option String) (pq : Project × Project) :
    revisionTexts ((changedEntry isId getLogs true md color pf pq).1) =
      [quote_rev isId md pq.1.revisionExpr, quote_rev isId md pq.2.revisionExpr] := by
  simp only [changedEntry, List.append_assoc, revisionTexts_append]
  rw [revisionTexts_printLogs]
  rfl

/-- The changed section's revision printer output, with color bound. -/
theorem revisionTexts_changedSection (isId : String → Bool) (getLogs : GetLogs)
    (md color : Bool) (pf : Option String) (changed : List (Project × Project)) :
    revisionTexts (changedSection isId getLogs true md color pf changed).1 =
      (changed.map (fun pq => [quote_rev isId md pq.1.revisionExpr,
        quote_rev isId md pq.2.revisionExpr])).flatten := by
  by_cases h : changed = []
  · simp [changedSection, h, revisionTexts, List.filterMap]
  · rw [changedSection, if_neg h]
    simp only [List.map_map, Function.comp_def]
    rw [revisionTexts_append,
      revisionTexts_flatten_map
        (fun pq : Project × Project =>
          (changedEntry isId getLogs true md color pf pq).1)
        (fun pq => [quote_rev isId md pq.1.revisionExpr,
          quote_rev isId md pq.2.revisionExpr]) changed
        (revisionTexts_changedEntry isId getLogs md color pf)]
    rfl

/-- The unreachable section's revision printer output, with color bound. -/
theorem revisionTexts_unreachableSection (isId : String → Bool) (md : Bool)
    (unreachable : List (Project × Project)) :
    revisionTexts (unreachableSection isId true md unreachable) =
      (unreachable.map (fun pq => [quote_rev isId md pq.1.revisionExpr,
        quote_rev isId md pq.2.revisionExpr])).flatten := by
  by_cases h : unreachable = []
  · simp [unreachableSection, h, revisionTexts, List.filterMap]
  · rw [unreachableSection, if_neg h, revisionTexts_append,
      revisionTexts_flatten_map
        (fun pq : Project × Project =>
          [pseg true .project (listPre md ++ quote md pq.1.relpath ++ " "),
           pseg true .revision (quote_rev isId md pq.1.revisionExpr),
           Event.seg .text " or ",
           pseg true .revision (quote_rev isId md pq.2.revisionExpr),
           Event.seg .text " not found", Event.nl])
        (fun pq => [quote_rev isId md pq.1.revisionExpr,
          quote_rev isId md pq.2.revisionExpr]) unreachable (fun pq => rfl)]
    rfl


/-- C4: revision display: whenever the displayed revision is a content-addressed
    id (IsId), every formatted-mode display — added, removed, changed and
    unreachable entries, whose revision-printer output is computed here in
    bucket order — shows its first 12 characters (inline-code quoted under
    markdown), while a symbolic name is displayed unshortened; raw mode never
    uses the revision printer and its project lines carry the full revisionExpr
    untruncated. -/
theorem C4_revision_display (isId : String → Bool) (getLogs : GetLogs)
    (md color oc : Bool) (pf : Option String) (diff : Diff) :
    (∀ r, isId r = true → quote_rev isId md r = quote md (r.take 12)) ∧
    (∀ r, isId r = false → quote_rev isId md r = quote md r) ∧
    (revisionTexts (printDiff isId getLogs true md color pf diff).1 =
      diff.added.map (fun p => quote_rev isId md p.revisionExpr) ++
      diff.removed.map (fun p => quote_rev isId md p.revisionExpr) ++
      (diff.changed.map (fun pq => [quote_rev isId md pq.1.revisionExpr,
        quote_rev isId md pq.2.revisionExpr])).flatten ++
      (diff.unreachable.map (fun pq => [quote_rev isId md pq.1.revisionExpr,
        quote_rev isId md pq.2.revisionExpr])).flatten) ∧
    (revisionTexts (printRawDiff getLogs oc md diff).1 = []) ∧
    (∀ p ∈ diff.added,
      Event.seg .text ("A " ++ p.relpath ++ " " ++ p.revisionExpr) ∈
        (printRawDiff getLogs oc md diff).1) ∧
    (∀ p ∈ diff.removed,
      Event.seg .text ("R " ++ p.relpath ++ " " ++ p.revisionExpr) ∈
        (printRawDiff getLogs oc md diff).1) ∧
    (∀ pq ∈ diff.changed,
      Event.seg .text ("C " ++ pq.1.relpath ++ " " ++ pq.1.revisionExpr ++ " " ++
        pq.2.revisionExpr) ∈ (printRawDiff getLogs oc md diff).1) ∧
    (∀ pq ∈ diff.unreachable,
      Event.seg .text ("U " ++ pq.1.relpath ++ " " ++ pq.1.revisionExpr ++ " " ++
        pq.2.revisionExpr) ∈ (printRawDiff getLogs oc md diff).1) := by
  refine ⟨?_, ?_, ?_, ?_, ?_, ?_, ?_, ?_⟩
  · intro r h
    rw [quote_rev, if_pos h]
  · intro r h
    rw [quote_rev, if_neg (by simp [h])]
  · show revisionTexts (addedSection isId true md diff.added ++
      removedSection isId true md diff.removed ++
      (changedSection isId getLogs true md color pf diff.changed).1 ++
      unreachableSection isId true md diff.unreachable) = _
    rw [revisionTexts_append, revisionTexts_append, revisionTexts_append,
      revisionTexts_addedSection, revisionTexts_removedSection,
      revisionTexts_changedSection, revisionTexts_unreachableSection]
  · simp only [printRawDiff]
    rw [revisionTexts_append, revisionTexts_append, revisionTexts_append]
    rw [revisionTexts_flatten_nil
        (fun p : Project => [Event.seg .text ("A " ++ p.relpath ++ " " ++
          p.revisionExpr), Event.nl]) diff.added (fun p _ => rfl),
      revisionTexts_flatten_nil
        (fun p : Project => [Event.seg .text ("R " ++ p.relpath ++ " " ++
          p.revisionExpr), Event.nl]) diff.removed (fun p _ => rfl),
      revisionTexts_flatten_nil
        (fun pq : Project × Project => [Event.seg .text ("U " ++ pq.1.relpath ++
          " " ++ pq.1.revisionExpr ++ " " ++ pq.2.revisionExpr), Event.nl])
        diff.unreachable (fun pq _ => rfl)]
    rw [List.map_map]
    rw [revisionTexts_flatten_nil _ diff.changed (fun pq _ => by
      show revisionTexts ([Event.seg .text ("C " ++ pq.1.relpath ++ " " ++
        pq.1.revisionExpr ++ " " ++ pq.2.revisionExpr), Event.nl] ++
        (printLogs getLogs oc md pq.1 pq.2 true false none none).1) = []
      rw [revisionTexts_append, revisionTexts_printLogs]
      rfl)]
    rfl
  · intro p hp
    simp only [printRawDiff]
    refine List.mem_append_left _ (List.mem_append_left _
      (List.mem_append_left _ ?_))
    exact List.mem_flatten_of_mem (List.mem_map_of_mem _ hp)
      (List.mem_cons_self _ _)
  · intro p hp
    simp only [printRawDiff]
    refine List.mem_append_left _ (List.mem_append_left _
      (List.mem_append_right _ ?_))
    exact List.mem_flatten_of_mem (List.mem_map_of_mem _ hp)
      (List.mem_cons_self _ _)
  · intro pq hpq
    simp only [printRawDiff]
    refine List.mem_append_left _ (List.mem_append_right _ ?_)
    rw [List.map_map]
    refine List.mem_flatten_of_mem (List.mem_map_of_mem _ hpq) ?_
    exact List.mem_cons_self _ _
  · intro pq hpq
    simp only [printRawDiff]
    refine List.mem_append_right _ ?_
    exact List.mem_flatten_of_mem (List.mem_map_of_mem _ hpq)
      (List.mem_cons_self _ _)

/-- C4 witness: a 40-character id is displayed as its first 12 characters, a
    symbolic name is untouched, and a raw added line carries the full revision. -/
theorem C4_revision_display_witness :
    quote_rev (fun s => decide (s.length = 40)) false
        "0123456789012345678901234567890123456789" =
      quote false ("0123456789012345678901234567890123456789".take 12) ∧
    quote_rev (fun s => decide (s.length = 40)) false "main" = quote false "main" ∧
    Event.seg .text "A p 0123456789012345678901234567890123456789" ∈
      (printRawDiff (fun _ _ _ _ _ => ⟨"", ""⟩) false false
        ⟨[⟨"p", "0123456789012345678901234567890123456789"⟩], [], [], []⟩).1 := by
  refine ⟨?_, ?_, ?_⟩
  · exact (C4_revision_display (fun s => decide (s.length = 40))
      (fun _ _ _ _ _ => ⟨"", ""⟩) false true false none ⟨[], [], [], []⟩).1
      "0123456789012345678901234567890123456789" (by decide)
  · exact (C4_revision_display (fun s => decide (s.length = 40))
      (fun _ _ _ _ _ => ⟨"", ""⟩) false true false none ⟨[], [], [], []⟩).2.1
      "main" (by decide)
  · exact (C4_revision_display (fun s => decide (s.length = 40))
      (fun _ _ _ _ _ => ⟨"", ""⟩) false true false none
      ⟨[⟨"p", "0123456789012345678901234567890123456789"⟩], [], [], []⟩).2.2.2.2.1
      ⟨"p", "0123456789012345678901234567890123456789"⟩ (by simp)

end Diffmanifests
